import Mathlib

/-!
Shallow embedding of src/audio/devices.cpp from qTox: a thin wrapper over the
RtAudio engine exposing device enumeration (Device) and a stream lifecycle
(StreamContext).  The RtAudio engine is modelled abstractly: its probed device
list is a list of DeviceInfo records, and the native stream lifecycle entry
points are arbitrary transformers of the two status flags the wrapper ever
reads (isStreamOpen, isStreamRunning).  Each wrapper operation additionally
returns the list of native calls it issued, so that statements of the form
"performs no native call" are expressible.
-/

/-- Mirror of RtAudio::DeviceInfo, restricted to the fields this unit reads. -/
structure DeviceInfo where
  probed : Bool
  name : String
  outputChannels : Nat
  inputChannels : Nat
  duplexChannels : Nat
  isDefaultOutput : Bool
  isDefaultInput : Bool
deriving DecidableEq

/-- A default-constructed RtAudio::DeviceInfo (no probe data). -/
def DeviceInfo.empty : DeviceInfo :=
  ⟨false, "", 0, 0, 0, false, false⟩

/-- The RtAudio engine's device view: the devices it reports, in probe order. -/
structure RtAudioEngine where
  devices : List DeviceInfo
deriving DecidableEq

/-- RtAudio::getDeviceCount. -/
def RtAudioEngine.getDeviceCount (eng : RtAudioEngine) : Nat :=
  eng.devices.length

/-- RtAudio::getDeviceInfo by index; an out-of-range index yields an unprobed
record. -/
def RtAudioEngine.getDeviceInfo (eng : RtAudioEngine) (i : Nat) : DeviceInfo :=
  eng.devices.getD i DeviceInfo.empty

/-- Mirror of RtAudio::StreamParameters. -/
structure StreamParameters where
  deviceId : Nat
  nChannels : Nat
  firstChannel : Nat
deriving DecidableEq

/-- RTAUDIO_SINT16 from RtAudio.h (16-bit signed PCM). -/
def RTAUDIO_SINT16 : Nat := 2

/-- Mirror of StreamContext::Private: the stored stream configuration and the
per-direction parameter blocks built by create. -/
structure StreamContextPrivate where
  format : Nat
  sampleRate : Nat
  bufferFrames : Nat
  inParams : Option StreamParameters
  outParams : Option StreamParameters
deriving DecidableEq

/-- The StreamContext::Private constructor: fixed format (RTAUDIO_SINT16),
sample rate (44100) and buffer size (256 frames). -/
def StreamContextPrivate.make (inParams outParams : Option StreamParameters) :
    StreamContextPrivate :=
  ⟨RTAUDIO_SINT16, 44100, 256, inParams, outParams⟩

/-- The input-direction block of create (devices.cpp lines 160-168). -/
def createInParams (eng : RtAudioEngine) (inputDevice : Int) :
    Option StreamParameters :=
  if 0 ≤ inputDevice then
    some ⟨inputDevice.toNat,
          if 1 < (eng.getDeviceInfo inputDevice.toNat).inputChannels then 2 else 1,
          0⟩
  else
    none

/-- The output-direction block of create (devices.cpp lines 170-178).  The
channel count is derived from info.inputChannels, exactly as the source line
176 reads it for the output direction as well. -/
def createOutParams (eng : RtAudioEngine) (outputDevice : Int) :
    Option StreamParameters :=
  if 0 ≤ outputDevice then
    some ⟨outputDevice.toNat,
          if 1 < (eng.getDeviceInfo outputDevice.toNat).inputChannels then 2 else 1,
          0⟩
  else
    none

/-- Embedding of qTox::Audio::create(int inputDevice, int outputDevice).
A negative index means no device for that direction; both negative yields the
null context. -/
def create (eng : RtAudioEngine) (inputDevice outputDevice : Int) :
    Option StreamContextPrivate :=
  if inputDevice < 0 ∧ outputDevice < 0 then
    none
  else
    some (StreamContextPrivate.make (createInParams eng inputDevice)
            (createOutParams eng outputDevice))

/-- Embedding of Device::availableDevices: one Device per engine index, in
index order, wrapping getDeviceInfo(i). -/
def Device.availableDevices (eng : RtAudioEngine) : List DeviceInfo :=
  (List.range eng.getDeviceCount).map eng.getDeviceInfo

/-- The loop of Device::find, walking the probed device list while carrying
the loop index i. -/
def Device.findFrom (deviceName : String) : List DeviceInfo → Nat → Int
  | [], _ => -1
  | info :: rest, i =>
      if deviceName = info.name then Int.ofNat i
      else Device.findFrom deviceName rest (i + 1)

/-- Embedding of Device::find: index of the first device whose name equals
deviceName, or -1. -/
def Device.find (eng : RtAudioEngine) (deviceName : String) : Int :=
  Device.findFrom deviceName eng.devices 0

/-- Device::isValid. -/
def Device.isValid (d : DeviceInfo) : Bool := d.probed

/-- Device::name. -/
def Device.name (d : DeviceInfo) : String := d.name

/-- Device::inputChannels. -/
def Device.inputChannels (d : DeviceInfo) : Nat := d.inputChannels

/-- Device::outputChannels. -/
def Device.outputChannels (d : DeviceInfo) : Nat := d.outputChannels

/-- Device::duplexChannels. -/
def Device.duplexChannels (d : DeviceInfo) : Nat := d.duplexChannels

/-- Device::isOutput. -/
def Device.isOutput (d : DeviceInfo) : Bool := decide (0 < d.outputChannels)

/-- Device::isDefaultOutput: reads info.isDefaultOutput. -/
def Device.isDefaultOutput (d : DeviceInfo) : Bool := d.isDefaultOutput

/-- Device::isInput. -/
def Device.isInput (d : DeviceInfo) : Bool := decide (0 < d.inputChannels)

/-- Device::isDefaultInput: the source (devices.cpp line 298) returns
d->info.isDefaultOutput here. -/
def Device.isDefaultInput (d : DeviceInfo) : Bool := d.isDefaultOutput

/-- The two status flags of the native stream that this unit reads. -/
structure EngineState where
  streamOpen : Bool
  streamRunning : Bool
deriving DecidableEq

/-- One call into the native engine, recorded with the arguments the wrapper
passed (for openStream: outParams, inParams, format, sampleRate,
bufferFrames, in the order of the RtAudio::openStream signature). -/
inductive NativeCall where
  | openStream (outParams inParams : Option StreamParameters)
      (format sampleRate bufferFrames : Nat)
  | closeStream
  | startStream
  | stopStream
deriving DecidableEq

/-- Abstract native-engine behaviour: how each native stream call moves the
status flags.  Nothing is assumed about these transformers, so theorems
quantified over a NativeEngine hold for every possible engine response,
success or failure. -/
structure NativeEngine where
  openStream : EngineState → EngineState
  closeStream : EngineState → EngineState
  startStream : EngineState → EngineState
  stopStream : EngineState → EngineState

/-- The native open call StreamContext::Private::open issues:
audio.openStream(outParams, inParams, format, sampleRate, bufferFrames, ...). -/
def openCallOf (ctx : StreamContextPrivate) : NativeCall :=
  NativeCall.openStream ctx.outParams ctx.inParams ctx.format ctx.sampleRate
    ctx.bufferFrames

/-- Embedding of StreamContext::Private::open: immediate success when the
stream is already open, otherwise one native open call; the result reports
whether the engine then says the stream is open. -/
def StreamContextPrivate.openCtx (eng : NativeEngine) (ctx : StreamContextPrivate)
    (s : EngineState) : Bool × EngineState × List NativeCall :=
  if s.streamOpen then
    (true, s, [])
  else
    ((eng.openStream s).streamOpen, eng.openStream s, [openCallOf ctx])

/-- Embedding of StreamContext::Private::close. -/
def StreamContextPrivate.closeCtx (eng : NativeEngine) (s : EngineState) :
    EngineState × List NativeCall :=
  if !s.streamOpen then
    (s, [])
  else
    (eng.closeStream s, [NativeCall.closeStream])

/-- Embedding of StreamContext::Private::start. -/
def StreamContextPrivate.startCtx (eng : NativeEngine) (ctx : StreamContextPrivate)
    (s : EngineState) : Bool × EngineState × List NativeCall :=
  let r := StreamContextPrivate.openCtx eng ctx s
  if !r.1 then
    (false, r.2.1, r.2.2)
  else
    ((eng.startStream r.2.1).streamRunning, eng.startStream r.2.1,
     r.2.2 ++ [NativeCall.startStream])

/-- Embedding of StreamContext::Private::stop. -/
def StreamContextPrivate.stopCtx (eng : NativeEngine) (s : EngineState) :
    Bool × EngineState × List NativeCall :=
  if !s.streamRunning then
    (true, s, [])
  else
    (!(eng.stopStream s).streamRunning, eng.stopStream s, [NativeCall.stopStream])

/-- Claim C10: isDefaultInput agrees with isDefaultOutput on every device and
both read the underlying default-output flag; consequently isDefaultInput does
not report the device's default-input flag. -/
theorem isDefaultInput_eq_isDefaultOutput :
    (∀ d : DeviceInfo, Device.isDefaultInput d = Device.isDefaultOutput d ∧
      Device.isDefaultInput d = d.isDefaultOutput) ∧
    ¬ ∀ d : DeviceInfo, Device.isDefaultInput d = d.isDefaultInput := by
  constructor
  · intro d
    exact ⟨rfl, rfl⟩
  · intro hall
    have h := hall ⟨false, "", 0, 0, 0, false, true⟩
    simp [Device.isDefaultInput] at h

/-- An engine with one device reporting 2 output channels but only 1 input
channel. -/
def engAsym : RtAudioEngine :=
  ⟨[⟨true, "asym", 2, 1, 1, false, false⟩]⟩

/-- Claim C1, evaluated at a failing input: create(-1, 0) against a device
reporting 2 output channels and 1 input channel derives an output-direction
channel count of 1, although the selected output device reports more than one
channel for the output direction; the source reads info.inputChannels for the
output direction. -/
theorem create_output_channels_from_input_field :
    Option.map (fun ctx => Option.map StreamParameters.nChannels ctx.outParams)
        (create engAsym (-1) 0) = some (some 1) ∧
    (engAsym.getDeviceInfo 0).outputChannels = 2 := by
  decide

/-- Claim C2: create yields the null context exactly when both indices are
negative; a non-null context carries stream parameters exactly for the
directions whose index is non-negative, hence references at least one
device. -/
theorem create_null_iff_both_negative (eng : RtAudioEngine) (i o : Int) :
    (create eng i o = none ↔ i < 0 ∧ o < 0) ∧
    Option.elim (create eng i o) True (fun ctx =>
      (ctx.inParams.isSome = true ↔ 0 ≤ i) ∧
      (ctx.outParams.isSome = true ↔ 0 ≤ o) ∧
      (ctx.inParams.isSome = true ∨ ctx.outParams.isSome = true)) := by
  by_cases hi : i < 0 <;> by_cases ho : o < 0
  · simp [create, hi, ho]
  · have hi2 : ¬ 0 ≤ i := not_le.mpr hi
    have ho2 : 0 ≤ o := not_lt.mp ho
    simp [create, createInParams, createOutParams, StreamContextPrivate.make,
      hi, ho, hi2, ho2]
  · have hi2 : 0 ≤ i := not_lt.mp hi
    have ho2 : ¬ 0 ≤ o := not_le.mpr ho
    simp [create, createInParams, createOutParams, StreamContextPrivate.make,
      hi, ho, hi2, ho2]
  · have hi2 : 0 ≤ i := not_lt.mp hi
    have ho2 : 0 ≤ o := not_lt.mp ho
    simp [create, createInParams, createOutParams, StreamContextPrivate.make,
      hi, ho, hi2, ho2]

/-- Claim C3: open() returns true at once, issuing no native call, when the
engine already reports the stream open; otherwise it issues exactly one native
open call carrying the stored parameters and configuration, and returns
whether the engine then reports the stream open. -/
theorem openCtx_idempotent (eng : NativeEngine) (ctx : StreamContextPrivate)
    (s : EngineState) :
    (s.streamOpen = true → StreamContextPrivate.openCtx eng ctx s = (true, s, [])) ∧
    (s.streamOpen = false →
      StreamContextPrivate.openCtx eng ctx s =
        ((eng.openStream s).streamOpen, eng.openStream s, [openCallOf ctx])) := by
  constructor <;> intro h <;> simp [StreamContextPrivate.openCtx, h]

/-- A native engine whose open, start and stop calls all succeed. -/
def engOk : NativeEngine :=
  ⟨fun s => ⟨true, s.streamRunning⟩, fun _ => ⟨false, false⟩,
   fun s => ⟨s.streamOpen, true⟩, fun s => ⟨s.streamOpen, false⟩⟩

/-- A native engine on which every call leaves the stream state unchanged, so
an open request never results in an open stream. -/
def engStuck : NativeEngine :=
  ⟨fun s => s, fun s => s, fun s => s, fun s => s⟩

/-- A sample stream context with one input direction. -/
def ctxIn : StreamContextPrivate :=
  StreamContextPrivate.make (some ⟨0, 1, 0⟩) none

theorem openCtx_idempotent_witness :
    StreamContextPrivate.openCtx engOk ctxIn ⟨true, false⟩ = (true, ⟨true, false⟩, []) ∧
    StreamContextPrivate.openCtx engOk ctxIn ⟨false, false⟩ =
      (true, ⟨true, false⟩, [openCallOf ctxIn]) :=
  ⟨(openCtx_idempotent engOk ctxIn ⟨true, false⟩).1 rfl,
   (openCtx_idempotent engOk ctxIn ⟨false, false⟩).2 rfl⟩

/-- Claim C4: start() on a not-yet-open stream first issues the native open
call; if the engine does not report the stream open afterwards, it returns
false without requesting a start; otherwise it requests a start and returns
whether the engine reports the stream running. -/
theorem startCtx_opens_first (eng : NativeEngine) (ctx : StreamContextPrivate)
    (s : EngineState) (h : s.streamOpen = false) :
    ((eng.openStream s).streamOpen = false →
      StreamContextPrivate.startCtx eng ctx s =
        (false, eng.openStream s, [openCallOf ctx])) ∧
    ((eng.openStream s).streamOpen = true →
      StreamContextPrivate.startCtx eng ctx s =
        ((eng.startStream (eng.openStream s)).streamRunning,
         eng.startStream (eng.openStream s),
         [openCallOf ctx, NativeCall.startStream])) := by
  constructor <;> intro h2 <;>
    simp [StreamContextPrivate.startCtx, StreamContextPrivate.openCtx, h, h2]

theorem startCtx_opens_first_witness :
    StreamContextPrivate.startCtx engStuck ctxIn ⟨false, false⟩ =
      (false, ⟨false, false⟩, [openCallOf ctxIn]) ∧
    StreamContextPrivate.startCtx engOk ctxIn ⟨false, false⟩ =
      (true, ⟨true, true⟩, [openCallOf ctxIn, NativeCall.startStream]) :=
  ⟨(startCtx_opens_first engStuck ctxIn ⟨false, false⟩ rfl).1 rfl,
   (startCtx_opens_first engOk ctxIn ⟨false, false⟩ rfl).2 rfl⟩

/-- Claim C5: stop() returns true and issues no native call when the engine
reports the stream not running (in particular before any start); otherwise it
issues one native stop call and returns whether the engine then reports the
stream no longer running. -/
theorem stopCtx_noop_when_not_running (eng : NativeEngine) (s : EngineState) :
    (s.streamRunning = false → StreamContextPrivate.stopCtx eng s = (true, s, [])) ∧
    (s.streamRunning = true →
      StreamContextPrivate.stopCtx eng s =
        (!(eng.stopStream s).streamRunning, eng.stopStream s,
         [NativeCall.stopStream])) := by
  constructor <;> intro h <;> simp [StreamContextPrivate.stopCtx, h]

theorem stopCtx_noop_witness :
    StreamContextPrivate.stopCtx engOk ⟨false, false⟩ = (true, ⟨false, false⟩, []) ∧
    StreamContextPrivate.stopCtx engOk ⟨true, true⟩ =
      (true, ⟨true, false⟩, [NativeCall.stopStream]) :=
  ⟨(stopCtx_noop_when_not_running engOk ⟨false, false⟩).1 rfl,
   (stopCtx_noop_when_not_running engOk ⟨true, true⟩).2 rfl⟩

/-- Claim C8: close() leaves the stream state unchanged and issues no native
call when the engine reports the stream not open; otherwise it issues one
native close call. -/
theorem closeCtx_noop_when_not_open (eng : NativeEngine) (s : EngineState) :
    (s.streamOpen = false → StreamContextPrivate.closeCtx eng s = (s, [])) ∧
    (s.streamOpen = true →
      StreamContextPrivate.closeCtx eng s =
        (eng.closeStream s, [NativeCall.closeStream])) := by
  constructor <;> intro h <;> simp [StreamContextPrivate.closeCtx, h]

theorem closeCtx_noop_witness :
    StreamContextPrivate.closeCtx engOk ⟨false, false⟩ = (⟨false, false⟩, []) ∧
    StreamContextPrivate.closeCtx engOk ⟨true, false⟩ =
      (⟨false, false⟩, [NativeCall.closeStream]) :=
  ⟨(closeCtx_noop_when_not_open engOk ⟨false, false⟩).1 rfl,
   (closeCtx_noop_when_not_open engOk ⟨true, false⟩).2 rfl⟩

/-- The find loop reports -1 exactly when no listed device matches, for any
starting index. -/
theorem findFrom_eq_neg_one (deviceName : String) (ds : List DeviceInfo) :
    ∀ i : Nat,
      (Device.findFrom deviceName ds i = -1 ↔ ∀ d ∈ ds, d.name ≠ deviceName) := by
  induction ds with
  | nil =>
      intro i
      simp [Device.findFrom]
  | cons info rest ih =>
      intro i
      by_cases h : deviceName = info.name
      · rw [show Device.findFrom deviceName (info :: rest) i = Int.ofNat i from by
          simp [Device.findFrom, h]]
        constructor
        · intro hc
          rw [Int.ofNat_eq_natCast] at hc
          exact absurd hc (by omega)
        · intro hall
          exact absurd h.symm (hall info (List.mem_cons_self info rest))
      · rw [show Device.findFrom deviceName (info :: rest) i =
              Device.findFrom deviceName rest (i + 1) from by
            simp [Device.findFrom, h]]
        rw [ih (i + 1)]
        simp only [List.mem_cons, forall_eq_or_imp]
        constructor
        · intro hr
          exact ⟨Ne.symm h, hr⟩
        · intro hall
          exact hall.2

/-- When the find loop started at index i reports Int.ofNat j, device j - i of
the remaining list is the first match. -/
theorem findFrom_first_match (deviceName : String) (ds : List DeviceInfo) :
    ∀ i j : Nat, Device.findFrom deviceName ds i = Int.ofNat j →
      i ≤ j ∧ j - i < ds.length ∧
      (ds.getD (j - i) DeviceInfo.empty).name = deviceName ∧
      ∀ k : Nat, k < j - i → (ds.getD k DeviceInfo.empty).name ≠ deviceName := by
  induction ds with
  | nil =>
      intro i j h
      simp [Device.findFrom] at h
  | cons info rest ih =>
      intro i j h
      by_cases hd : deviceName = info.name
      · have heq : Int.ofNat i = Int.ofNat j := by
          simpa [Device.findFrom, hd] using h
        have hij : i = j := by
          rw [Int.ofNat_eq_natCast, Int.ofNat_eq_natCast] at heq
          omega
        subst hij
        refine ⟨Nat.le_refl i, ?_, ?_, ?_⟩
        · simp
        · simpa using hd.symm
        · intro k hk
          exact absurd hk (by omega)
      · have h2 := ih (i + 1) j (by simpa [Device.findFrom, hd] using h)
        obtain ⟨h1, hlen, hmatch, hfirst⟩ := h2
        refine ⟨by omega, ?_, ?_, ?_⟩
        · simp only [List.length_cons]
          omega
        · have hsub : j - i = (j - (i + 1)) + 1 := by omega
          rw [hsub]
          simpa using hmatch
        · intro k hk
          cases k with
          | zero =>
              simpa using Ne.symm hd
          | succ k2 =>
              have hk2 : k2 < j - (i + 1) := by omega
              simpa using hfirst k2 hk2

/-- Claim C6: Device::find reports -1 exactly when no enumerated device has
the requested name; when it reports a non-negative index j, that index is in
range, the device enumerated at j matches the name exactly, and no earlier
index matches (first match wins). -/
theorem find_first_match (eng : RtAudioEngine) (deviceName : String) :
    (Device.find eng deviceName = -1 ↔ ∀ d ∈ eng.devices, d.name ≠ deviceName) ∧
    ∀ j : Nat, Device.find eng deviceName = Int.ofNat j →
      j < eng.getDeviceCount ∧ (eng.getDeviceInfo j).name = deviceName ∧
      ∀ k : Nat, k < j → (eng.getDeviceInfo k).name ≠ deviceName := by
  constructor
  · exact findFrom_eq_neg_one deviceName eng.devices 0
  · intro j h
    obtain ⟨h0, hlen, hmatch, hfirst⟩ :=
      findFrom_first_match deviceName eng.devices 0 j h
    refine ⟨?_, ?_, ?_⟩
    · simpa [RtAudioEngine.getDeviceCount] using hlen
    · simpa [RtAudioEngine.getDeviceInfo] using hmatch
    · intro k hk
      have hne := hfirst k (by omega)
      simpa [RtAudioEngine.getDeviceInfo] using hne

/-- An engine with three devices, two of which share the name used for the
find witness. -/
def engNamed : RtAudioEngine :=
  ⟨[⟨true, "alpha", 1, 1, 1, false, false⟩,
    ⟨true, "beta", 1, 1, 1, false, false⟩,
    ⟨true, "beta", 2, 2, 2, false, false⟩]⟩

/-- The duplicated device name searched for in the find witness. -/
def betaName : String := "beta"

theorem find_first_match_witness :
    1 < engNamed.getDeviceCount ∧ (engNamed.getDeviceInfo 1).name = betaName ∧
    ∀ k : Nat, k < 1 → (engNamed.getDeviceInfo k).name ≠ betaName :=
  (find_first_match engNamed betaName).2 1 (by decide)

/-- Claim C7: availableDevices has exactly getDeviceCount entries and the
entry at each index i wraps the engine's device info for i, in index order
0..count-1. -/
theorem availableDevices_snapshot (eng : RtAudioEngine) :
    (Device.availableDevices eng).length = eng.getDeviceCount ∧
    ∀ i : Nat, i < eng.getDeviceCount →
      (Device.availableDevices eng).get? i = some (eng.getDeviceInfo i) := by
  constructor
  · simp [Device.availableDevices]
  · intro i hi
    simp only [Device.availableDevices, List.get?_eq_getElem?, List.getElem?_map,
      List.getElem?_range hi]
    rfl

theorem availableDevices_snapshot_witness :
    (Device.availableDevices engNamed).get? 2 = some (engNamed.getDeviceInfo 2) :=
  (availableDevices_snapshot engNamed).2 2 (by decide)

/-- Claim C9: every context produced by create stores the fixed configuration
(format RTAUDIO_SINT16, sample rate 44100 Hz, buffer size 256 frames), and the
native open call issued by open() on a not-yet-open stream passes exactly this
configuration. -/
theorem create_fixed_configuration (eng : RtAudioEngine) (i o : Int)
    (ctx : StreamContextPrivate) (h : create eng i o = some ctx) :
    ctx.format = RTAUDIO_SINT16 ∧ ctx.sampleRate = 44100 ∧ ctx.bufferFrames = 256 ∧
    ∀ ne : NativeEngine, ∀ s : EngineState, s.streamOpen = false →
      (StreamContextPrivate.openCtx ne ctx s).2.2 =
        [NativeCall.openStream ctx.outParams ctx.inParams RTAUDIO_SINT16
          44100 256] := by
  have hctx : ctx = StreamContextPrivate.make (createInParams eng i)
      (createOutParams eng o) := by
    by_cases hio : i < 0 ∧ o < 0
    · simp only [create, if_pos hio] at h
      exact absurd h (by simp)
    · simp only [create, if_neg hio, Option.some.injEq] at h
      exact h.symm
  subst hctx
  refine ⟨rfl, rfl, rfl, ?_⟩
  intro ne s hs
  simp [StreamContextPrivate.openCtx, hs, openCallOf, StreamContextPrivate.make]

theorem create_fixed_configuration_witness :
    (StreamContextPrivate.openCtx engStuck ctxIn ⟨false, false⟩).2.2 =
      [NativeCall.openStream none (some ⟨0, 1, 0⟩) RTAUDIO_SINT16 44100 256] :=
  (create_fixed_configuration ⟨[]⟩ 0 (-1) ctxIn (by decide)).2.2.2 engStuck
    ⟨false, false⟩ rfl
